import Mathlib

/-!
Verification of the ClaudeKeepAlive repository: a shallow embedding of
`src/claude_keepalive.py` and `src/schedule_wakes.py` in Lean 4, with
theorems settling the claims of the specification about the decision policy,
the usage fetcher, the prompt sender, the account processor and the
wake scheduler.
-/

/-- A JSON value as decoded by the Python `json` module.  Numbers are modelled
as integers (the reset-boundary fields carry strings or null, so fractional
values never matter for the properties proved here). -/
inductive JVal where
  | null : JVal
  | bool (b : Bool) : JVal
  | num (n : Int) : JVal
  | str (s : String) : JVal
  | arr (elems : List JVal) : JVal
  | obj (fields : List (String × JVal)) : JVal

/-- Python truthiness of a decoded JSON value: `None`, `False`, `0`, `""`,
`[]` and `{}` are falsy, everything else is truthy.  This is the semantics
of `if mode_data` and `not resets_at` in `should_send_keepalive`. -/
def pyTruthy : JVal → Bool
  | JVal.null => false
  | JVal.bool b => b
  | JVal.num n => n != 0
  | JVal.str s => s != ""
  | JVal.arr elems => !elems.isEmpty
  | JVal.obj fields => !fields.isEmpty

/-- The method `d.get(k, default)` on a Python dict, modelled as an association list
(first binding wins; Python dicts have unique keys). -/
def dictGetD {α : Type} (kvs : List (String × α)) (k : String) (d : α) : α :=
  match kvs.find? (fun p => p.1 == k) with
  | some p => p.2
  | none => d

/-- A window record: the JSON object stored in the usage document under a
window name, e.g. `{"resets_at": "2025-01-01T00:00:00Z"}`. -/
abbrev WindowRecord := List (String × JVal)

/-- A usage snapshot: the parsed usage document, a mapping from window name
to window record (spec section 3: "a mapping from window name to a record
containing an optional reset-boundary timestamp"). -/
abbrev Usage := List (String × WindowRecord)

/-- Lines 81-82 of `claude_keepalive.py`:
`mode_data = usage.get(mode, {})` followed by
`resets_at = mode_data.get("resets_at") if mode_data else None`. -/
def resets_at_of (usage : Usage) (mode : String) : JVal :=
  let mode_data := dictGetD usage mode []
  if mode_data.isEmpty then JVal.null
  else dictGetD mode_data "resets_at" JVal.null

/-- A checked window "lacks a reset boundary" when the `resets_at` value the
code extracts for it is falsy (absent key, absent window, null, empty
string, ...): this is the `not resets_at` test on line 87. -/
def windowLacksReset (usage : Usage) (mode : String) : Bool :=
  !(pyTruthy (resets_at_of usage mode))

/-- The function `should_send_keepalive` (lines 76-93 of `claude_keepalive.py`): fold the
loop body over the configured modes, threading the `needs_keepalive`
accumulator, which starts `False`. -/
def should_send_keepalive (usage : Usage) (keepalive_modes : List String)
    (force : Bool) : Bool :=
  keepalive_modes.foldl
    (fun needs_keepalive mode =>
      let resets_at := resets_at_of usage mode
      if force then true
      else if pyTruthy resets_at = false then true
      else needs_keepalive)
    false

lemma should_send_keepalive_foldl (usage : Usage) (force : Bool)
    (modes : List String) (b : Bool) :
    modes.foldl
      (fun needs_keepalive mode =>
        let resets_at := resets_at_of usage mode
        if force then true
        else if pyTruthy resets_at = false then true
        else needs_keepalive)
      b
    = (b || modes.any (fun m => force || windowLacksReset usage m)) := by
  induction modes generalizing b with
  | nil => simp
  | cons m ms ih =>
      simp only [List.foldl_cons, List.any_cons, ih]
      cases force with
      | true => simp
      | false =>
          cases h : pyTruthy (resets_at_of usage m) with
          | true => simp [windowLacksReset, h]
          | false => simp [windowLacksReset, h, Bool.or_assoc]

lemma should_send_keepalive_eq_any (usage : Usage) (modes : List String)
    (force : Bool) :
    should_send_keepalive usage modes force
      = modes.any (fun m => force || windowLacksReset usage m) := by
  have h := should_send_keepalive_foldl usage force modes false
  simp only [Bool.false_or] at h
  exact h

/-- The outcome of one HTTP attempt: either the server responds and the body
parses (`success` carries the parsed usage document), or the attempt raises
(connection error, non-2xx status via `raise_for_status`, JSON error ...). -/
inductive FetchOutcome where
  | success (data : Usage) : FetchOutcome
  | failure (err : String) : FetchOutcome

/-- Whether an attempt outcome is a failure (an exception in the Python). -/
def FetchOutcome.isFailure : FetchOutcome → Bool
  | FetchOutcome.success _ => false
  | FetchOutcome.failure _ => true

/-- Observable behaviour of one call to `fetch_usage`: the returned value
(`none` models Python `None`), how many HTTP requests were issued, and the
sleeps performed between attempts, in seconds and in order. -/
structure FetchTrace where
  result : Option Usage
  attempts : Nat
  waits : List Nat

/-- The body of the retry loop of `fetch_usage` (lines 49-73 of
`claude_keepalive.py`), recursing over the remaining values of `attempt`
produced by `range(max_retries)`.  A success returns immediately; a failure
on a non-final attempt sleeps `2 ** attempt` seconds and continues; a
failure on the final attempt returns `None`. -/
def fetch_usage_go (net : Nat → FetchOutcome) (max_retries : Nat) :
    List Nat → FetchTrace
  | [] => ⟨none, 0, []⟩
  | attempt :: rest =>
    match net attempt with
    | FetchOutcome.success data => ⟨some data, 1, []⟩
    | FetchOutcome.failure _ =>
      if attempt < max_retries - 1 then
        let t := fetch_usage_go net max_retries rest
        ⟨t.result, t.attempts + 1, 2 ^ attempt :: t.waits⟩
      else
        ⟨none, 1, []⟩

/-- The function `fetch_usage` (lines 36-73): `max_retries = 3` and the loop runs over
`range(3)`.  The environment `net` gives the outcome of each attempt. -/
def fetch_usage (net : Nat → FetchOutcome) : FetchTrace :=
  fetch_usage_go net 3 (List.range 3)

/-- The outcome of the single `subprocess.run` call in `send_prompt`: the
process completed with a return code and captured streams (modelled as the
decoded character sequences), or timed out after the 30s bound, or the call
raised some other exception. -/
inductive ExecOutcome where
  | completed (returncode : Int) (stdout stderr : List Char) : ExecOutcome
  | timedOut : ExecOutcome
  | err (e : List Char) : ExecOutcome

/-- Observable behaviour of one call to `send_prompt`: the returned boolean,
the stderr excerpt logged on a non-zero exit (if any), and how many times
the external CLI was invoked. -/
structure SendTrace where
  success : Bool
  stderr_excerpt : Option (List Char)
  invocations : Nat

/-- The function `send_prompt` (lines 96-127 of `claude_keepalive.py`): one
`subprocess.run` invocation; success iff return code 0; on a non-zero code
log the first 200 characters of stderr; timeout and other exceptions return
`False`.  `run 0` is the outcome of the single invocation made. -/
def send_prompt (run : Nat → ExecOutcome) : SendTrace :=
  match run 0 with
  | ExecOutcome.completed returncode _ stderr =>
    if returncode = 0 then ⟨true, none, 1⟩
    else ⟨false, some (stderr.take 200), 1⟩
  | ExecOutcome.timedOut => ⟨false, none, 1⟩
  | ExecOutcome.err _ => ⟨false, none, 1⟩

/-- An account record from `config.json`.  `keepalive_modes` is `none` when
the key is absent (the code then defaults to `["five_hour"]`). -/
structure Account where
  name : String
  config_dir : String
  org_id : String
  session_key : String
  keepalive_modes : Option (List String)

/-- Observable behaviour of `process_account` for one account: whether the
usage fetch was invoked, the decision-policy verdict when one was reached,
and whether a prompt send was attempted. -/
structure AccountTrace where
  fetched : Bool
  decided : Option Bool
  sent : Bool

/-- The function `process_account` (lines 130-162 of `claude_keepalive.py`): validate
credentials, validate the config directory (`fs` tells which paths exist),
fetch usage, skip on a falsy snapshot, apply the decision policy with
`force = test_mode`, and send the prompt when it says to. -/
def process_account (account : Account) (fs : String → Bool)
    (net : Nat → FetchOutcome) (run : Nat → ExecOutcome)
    (test_mode : Bool) : AccountTrace :=
  let keepalive_modes := account.keepalive_modes.getD ["five_hour"]
  if account.org_id = "" ∨ account.session_key = "" then
    ⟨false, none, false⟩
  else if fs account.config_dir = false then
    ⟨false, none, false⟩
  else
    match (fetch_usage net).result with
    | none => ⟨true, none, false⟩
    | some usage =>
      if usage.isEmpty then ⟨true, none, false⟩
      else if should_send_keepalive usage keepalive_modes test_mode = false then
        ⟨true, some false, false⟩
      else
        let _ := send_prompt run
        ⟨true, some true, true⟩

/-- The account loop of `main` (lines 195-196): each account is processed by
a plain function call, with no state threaded from one account to the
next. -/
def process_accounts (accounts : List Account) (fs : String → Bool)
    (net : Nat → FetchOutcome) (run : Nat → ExecOutcome)
    (test_mode : Bool) : List AccountTrace :=
  accounts.map (fun account => process_account account fs net run test_mode)

/-- Environment for the wake scheduler: whether `pmset schedule cancelall`
succeeds, and whether `pmset schedule wake <t>` succeeds for the wake time
`t` (in minutes since an epoch). -/
structure WakeEnv where
  clearOk : Bool
  registerOk : Nat → Bool

/-- Observable behaviour of one run of `schedule_24_hours`: whether the
clear step succeeded, the wake times attempted (minutes since the epoch, in
order), and the final success / failure counters. -/
structure ScheduleTrace where
  cleared : Bool
  wakes : List Nat
  scheduled_count : Nat
  failed_count : Nat

/-- Lines 71-76 of `schedule_wakes.py`: `now.replace(minute=55, second=0,
microsecond=0)`, plus one hour when `now.minute >= 55`.  Time is in minutes
since an epoch; `nowH` is the current hour index and `nowM` the current
minute within the hour. -/
def wakeStart (nowH nowM : Nat) : Nat :=
  if 55 ≤ nowM then (nowH + 1) * 60 + 55 else nowH * 60 + 55

/-- The body of the registration loop of lines 83-88 of
`schedule_wakes.py`, threading `(scheduled_count, failed_count)`. -/
def registerStep (env : WakeEnv) (counts : Nat × Nat) (wake_time : Nat) :
    Nat × Nat :=
  if env.registerOk wake_time then (counts.1 + 1, counts.2)
  else (counts.1, counts.2 + 1)

/-- The registration loop counters of lines 83-88: fold the loop body over
the wake times, starting from `(0, 0)`. -/
def registerLoop (env : WakeEnv) (wakes : List Nat) : Nat × Nat :=
  wakes.foldl (registerStep env) (0, 0)

/-- The function `schedule_24_hours` (lines 62-94 of `schedule_wakes.py`): clear first
and abort on failure; otherwise compute the 24 hourly wake times from the
:55 start and attempt each registration independently. -/
def schedule_24_hours (nowH nowM : Nat) (env : WakeEnv) : ScheduleTrace :=
  if env.clearOk = false then
    ⟨false, [], 0, 0⟩
  else
    let current_hour := wakeStart nowH nowM
    let wakes := (List.range 24).map (fun i => current_hour + i * 60)
    let counts := registerLoop env wakes
    ⟨true, wakes, counts.1, counts.2⟩

lemma registerStep_true (env : WakeEnv) (a b w : Nat)
    (h : env.registerOk w = true) : registerStep env (a, b) w = (a + 1, b) := by
  simp [registerStep, h]

lemma registerStep_false (env : WakeEnv) (a b w : Nat)
    (h : env.registerOk w = false) : registerStep env (a, b) w = (a, b + 1) := by
  simp [registerStep, h]

lemma registerLoop_foldl (env : WakeEnv) (wakes : List Nat) (a b : Nat) :
    (wakes.foldl (registerStep env) (a, b)).1
      + (wakes.foldl (registerStep env) (a, b)).2
    = a + b + wakes.length := by
  induction wakes generalizing a b with
  | nil => simp
  | cons w ws ih =>
      rw [List.foldl_cons]
      cases h : env.registerOk w with
      | true => rw [registerStep_true env a b w h, ih]; simp; omega
      | false => rw [registerStep_false env a b w h, ih]; simp; omega

lemma registerLoop_sum (env : WakeEnv) (wakes : List Nat) :
    (registerLoop env wakes).1 + (registerLoop env wakes).2 = wakes.length := by
  have h := registerLoop_foldl env wakes 0 0
  simpa [registerLoop] using h

/-- C1: for every usage snapshot, non-empty list of checked windows, and
force=false, `should_send_keepalive` returns true iff at least one checked
window lacks a reset-boundary timestamp, and returns false iff every
checked window has a recorded reset boundary. -/
theorem should_send_keepalive_false_iff_all_reset (usage : Usage)
    (modes : List String) (h : modes ≠ []) :
    (should_send_keepalive usage modes false = true ↔
      ∃ m ∈ modes, windowLacksReset usage m = true) ∧
    (should_send_keepalive usage modes false = false ↔
      ∀ m ∈ modes, windowLacksReset usage m = false) := by
  rw [should_send_keepalive_eq_any]
  constructor
  · simp [List.any_eq_true]
  · simp [List.any_eq_false]

theorem should_send_keepalive_false_iff_all_reset_witness :
    should_send_keepalive [("five_hour", [("resets_at", JVal.null)])]
      ["five_hour"] false = true :=
  ((should_send_keepalive_false_iff_all_reset
      [("five_hour", [("resets_at", JVal.null)])] ["five_hour"]
      (by decide)).1).mpr ⟨"five_hour", by decide, by decide⟩

/-- C2 counterexample: with an empty list of checked windows the loop body
never runs, so `should_send_keepalive` returns False even when force is
true — refuting the claim quantified over every list of checked windows. -/
theorem should_send_keepalive_force_empty_modes :
    should_send_keepalive [("five_hour", [("resets_at", JVal.null)])] [] true
      = false := rfl

/-- C2 (amended): for every usage snapshot and every NON-EMPTY list of
checked windows, when force is true, `should_send_keepalive` returns true
regardless of the snapshot contents. -/
theorem should_send_keepalive_force_true (usage : Usage)
    (modes : List String) (h : modes ≠ []) :
    should_send_keepalive usage modes true = true := by
  rw [should_send_keepalive_eq_any]
  cases modes with
  | nil => exact absurd rfl h
  | cons m ms => simp

theorem should_send_keepalive_force_true_witness :
    should_send_keepalive
      [("five_hour", [("resets_at", JVal.str "2025-01-01T00:00:00Z")])]
      ["five_hour"] true = true :=
  should_send_keepalive_force_true
    [("five_hour", [("resets_at", JVal.str "2025-01-01T00:00:00Z")])]
    ["five_hour"] (by decide)

/-- C9: with force=false, a window name listed in the checked windows but
absent from the snapshot, or whose reset-boundary field is null, empty, or
otherwise falsy, is treated as lacking a reset boundary, so
`should_send_keepalive` returns true. -/
theorem should_send_keepalive_missing_or_falsy (usage : Usage)
    (modes : List String) (m : String) (hm : m ∈ modes)
    (h : usage.find? (fun p => p.1 == m) = none
      ∨ pyTruthy (resets_at_of usage m) = false) :
    should_send_keepalive usage modes false = true := by
  rw [should_send_keepalive_eq_any]
  have hl : windowLacksReset usage m = true := by
    rcases h with h | h
    · simp [windowLacksReset, resets_at_of, dictGetD, h, pyTruthy]
    · simp [windowLacksReset, h]
  refine List.any_eq_true.mpr ⟨m, hm, ?_⟩
  simp [hl]

theorem should_send_keepalive_missing_or_falsy_witness :
    should_send_keepalive [("seven_day", [("resets_at", JVal.str "")])]
      ["five_hour", "seven_day"] false = true :=
  should_send_keepalive_missing_or_falsy
    [("seven_day", [("resets_at", JVal.str "")])]
    ["five_hour", "seven_day"] "five_hour" (by decide) (Or.inl rfl)

/-- C3: `fetch_usage` attempts at most 3 HTTP requests, and it returns the
absence signal (None) if and only if all 3 attempts fail. -/
theorem fetch_usage_attempts_and_none_iff (net : Nat → FetchOutcome) :
    (fetch_usage net).attempts ≤ 3 ∧
    ((fetch_usage net).result = none ↔
      ((net 0).isFailure = true ∧ (net 1).isFailure = true
        ∧ (net 2).isFailure = true)) := by
  have hr : List.range 3 = [0, 1, 2] := rfl
  cases h0 : net 0 <;> cases h1 : net 1 <;> cases h2 : net 2 <;>
    simp [fetch_usage, hr, fetch_usage_go, h0, h1, h2, FetchOutcome.isFailure]

/-- C4: `fetch_usage` returns the parsed response body on the first
successful attempt without further requests, and between failed attempts
waits according to the exponential backoff schedule: 1 second after the
first failure and 2 seconds after the second. -/
theorem fetch_usage_first_success_and_backoff (net : Nat → FetchOutcome) :
    (∀ data, net 0 = FetchOutcome.success data →
      fetch_usage net = ⟨some data, 1, []⟩) ∧
    (∀ e0 data, net 0 = FetchOutcome.failure e0 →
      net 1 = FetchOutcome.success data →
      fetch_usage net = ⟨some data, 2, [1]⟩) ∧
    (∀ e0 e1 data, net 0 = FetchOutcome.failure e0 →
      net 1 = FetchOutcome.failure e1 →
      net 2 = FetchOutcome.success data →
      fetch_usage net = ⟨some data, 3, [1, 2]⟩) := by
  have hr : List.range 3 = [0, 1, 2] := rfl
  refine ⟨?_, ?_, ?_⟩
  · intro data h0
    simp [fetch_usage, hr, fetch_usage_go, h0]
  · intro e0 data h0 h1
    simp [fetch_usage, hr, fetch_usage_go, h0, h1]
  · intro e0 e1 data h0 h1 h2
    simp [fetch_usage, hr, fetch_usage_go, h0, h1, h2]

/-- A network environment whose first attempt fails and later attempts
succeed, used to exercise the retry path of `fetch_usage`. -/
def netFailThenOk : Nat → FetchOutcome := fun n =>
  if n = 0 then FetchOutcome.failure "connection reset"
  else FetchOutcome.success
    [("five_hour", [("resets_at", JVal.str "2025-01-01T00:00:00Z")])]

theorem fetch_usage_first_success_and_backoff_witness :
    fetch_usage netFailThenOk =
      ⟨some [("five_hour", [("resets_at", JVal.str "2025-01-01T00:00:00Z")])],
        2, [1]⟩ :=
  (fetch_usage_first_success_and_backoff netFailThenOk).2.1
    "connection reset"
    [("five_hour", [("resets_at", JVal.str "2025-01-01T00:00:00Z")])]
    rfl rfl

/-- C8: `send_prompt` returns failure exactly when the external CLI exits
with a non-zero code, times out, or raises an error; on a non-zero exit the
logged error excerpt is the first at-most-200 characters of stderr; and the
CLI is invoked exactly once (never retried). -/
theorem send_prompt_failure_characterization (run : Nat → ExecOutcome) :
    ((send_prompt run).success = false ↔
      ¬ ∃ out errtext, run 0 = ExecOutcome.completed 0 out errtext) ∧
    (∀ rc out stderr, run 0 = ExecOutcome.completed rc out stderr →
      rc ≠ 0 →
      (send_prompt run).stderr_excerpt = some (stderr.take 200) ∧
      (stderr.take 200).length ≤ 200) ∧
    (send_prompt run).invocations = 1 := by
  refine ⟨?_, ?_, ?_⟩
  · cases h : run 0 with
    | completed rc out stderr =>
        by_cases hrc : rc = 0
        · subst hrc; simp [send_prompt, h]
        · simp [send_prompt, h, hrc]
    | timedOut => simp [send_prompt, h]
    | err e => simp [send_prompt, h]
  · intro rc out stderr h hrc
    constructor
    · simp [send_prompt, h, hrc]
    · have hlen := List.length_take 200 stderr
      omega
  · cases h : run 0 with
    | completed rc out stderr =>
        by_cases hrc : rc = 0
        · subst hrc; simp [send_prompt, h]
        · simp [send_prompt, h, hrc]
    | timedOut => simp [send_prompt, h]
    | err e => simp [send_prompt, h]

/-- A CLI environment whose single invocation exits with code 1 and a short
stderr, used to exercise the failure path of `send_prompt`. -/
def runNonzeroExit : Nat → ExecOutcome := fun _ =>
  ExecOutcome.completed 1 [] (String.toList "auth error")

theorem send_prompt_failure_characterization_witness :
    (send_prompt runNonzeroExit).stderr_excerpt
        = some ((String.toList "auth error").take 200) ∧
    ((String.toList "auth error").take 200).length ≤ 200 :=
  (send_prompt_failure_characterization runNonzeroExit).2.1
    1 [] (String.toList "auth error") rfl (by decide)

/-- C5: `process_account` short-circuits in order — empty credentials skip
everything; a missing config directory skips everything; a failed fetch
skips the decision and the send; a false decision skips the send; and the
trace of an account inside the account loop of `main` is computed by
`process_account` on that account alone, unaffected by the accounts
processed before or after it. -/
theorem process_account_short_circuits (account : Account)
    (fs : String → Bool) (net : Nat → FetchOutcome)
    (run : Nat → ExecOutcome) (test_mode : Bool) :
    (account.org_id = "" ∨ account.session_key = "" →
      process_account account fs net run test_mode = ⟨false, none, false⟩) ∧
    (fs account.config_dir = false →
      process_account account fs net run test_mode = ⟨false, none, false⟩) ∧
    (account.org_id ≠ "" → account.session_key ≠ "" →
      fs account.config_dir = true →
      (fetch_usage net).result = none →
      process_account account fs net run test_mode = ⟨true, none, false⟩) ∧
    (account.org_id ≠ "" → account.session_key ≠ "" →
      fs account.config_dir = true →
      ∀ usage, (fetch_usage net).result = some usage →
      usage.isEmpty = false →
      should_send_keepalive usage (account.keepalive_modes.getD ["five_hour"])
        test_mode = false →
      process_account account fs net run test_mode
        = ⟨true, some false, false⟩) ∧
    (∀ (pre post : List Account),
      process_accounts (pre ++ account :: post) fs net run test_mode =
        process_accounts pre fs net run test_mode
          ++ process_account account fs net run test_mode
            :: process_accounts post fs net run test_mode) := by
  refine ⟨?_, ?_, ?_, ?_, ?_⟩
  · intro h
    rcases h with h | h <;> simp [process_account, h]
  · intro hdir
    by_cases h : account.org_id = "" ∨ account.session_key = ""
    · rcases h with h | h <;> simp [process_account, h]
    · simp [process_account, h, hdir]
  · intro h1 h2 h3 h4
    simp [process_account, h1, h2, h3, h4]
  · intro h1 h2 h3 usage h4 h5 h6
    simp [process_account, h1, h2, h3, h4, h5, h6]
  · intro pre post
    simp [process_accounts]

/-- An account with an empty organization id. -/
def acctNoCreds : Account :=
  ⟨"personal", "/Users/u/.claude-personal", "", "sk-session", none⟩

/-- A filesystem on which every path exists. -/
def fsAll : String → Bool := fun _ => true

/-- A network on which every attempt fails. -/
def netAllFail : Nat → FetchOutcome := fun _ =>
  FetchOutcome.failure "connection refused"

/-- A CLI environment whose invocation always succeeds. -/
def runOk : Nat → ExecOutcome := fun _ => ExecOutcome.completed 0 [] []

theorem process_account_short_circuits_witness :
    process_account acctNoCreds fsAll netAllFail runOk false
      = ⟨false, none, false⟩ :=
  (process_account_short_circuits acctNoCreds fsAll netAllFail runOk
    false).1 (Or.inl rfl)

/-- C10: if `fetch_usage` succeeds but returns an empty (falsy) snapshot,
`process_account` skips the account exactly as if the fetch had failed: the
decision policy is never applied, no prompt is sent, and the trace equals
the trace of any run whose fetch returned the absence signal. -/
theorem process_account_empty_snapshot_skips (account : Account)
    (fs : String → Bool) (net : Nat → FetchOutcome)
    (run : Nat → ExecOutcome) (test_mode : Bool)
    (h1 : account.org_id ≠ "") (h2 : account.session_key ≠ "")
    (h3 : fs account.config_dir = true)
    (h4 : (fetch_usage net).result = some []) :
    process_account account fs net run test_mode = ⟨true, none, false⟩ ∧
    (∀ net2, (fetch_usage net2).result = none →
      process_account account fs net2 run test_mode
        = process_account account fs net run test_mode) := by
  have hmain : process_account account fs net run test_mode
      = ⟨true, none, false⟩ := by
    simp [process_account, h1, h2, h3, h4]
  refine ⟨hmain, ?_⟩
  intro net2 hh
  rw [hmain]
  simp [process_account, h1, h2, h3, hh]

/-- A network whose first attempt succeeds with an empty response body. -/
def netEmptyBody : Nat → FetchOutcome := fun _ => FetchOutcome.success []

/-- An account with full credentials. -/
def acctFull : Account :=
  ⟨"personal", "/Users/u/.claude-personal", "org-123", "sk-session",
    some ["five_hour"]⟩

theorem process_account_empty_snapshot_skips_witness :
    process_account acctFull fsAll netEmptyBody runOk false
      = ⟨true, none, false⟩ :=
  (process_account_empty_snapshot_skips acctFull fsAll netEmptyBody runOk
    false (by decide) (by decide) rfl rfl).1

lemma registerLoop_foldl_fst (env : WakeEnv) (wakes : List Nat) (a b : Nat) :
    (wakes.foldl (registerStep env) (a, b)).1
      = a + wakes.countP (fun w => env.registerOk w) := by
  induction wakes generalizing a b with
  | nil => simp
  | cons w ws ih =>
      rw [List.foldl_cons]
      cases h : env.registerOk w with
      | true =>
          rw [registerStep_true env a b w h, ih]
          simp [List.countP_cons, h]
          omega
      | false =>
          rw [registerStep_false env a b w h, ih]
          simp [List.countP_cons, h]

lemma registerLoop_fst (env : WakeEnv) (wakes : List Nat) :
    (registerLoop env wakes).1 = wakes.countP (fun w => env.registerOk w) := by
  have h := registerLoop_foldl_fst env wakes 0 0
  simpa [registerLoop] using h

/-- C6: if the clear step fails, the whole scheduling operation aborts and
zero wake events are registered. -/
theorem schedule_24_hours_clear_failure_aborts (nowH nowM : Nat)
    (env : WakeEnv) (h : env.clearOk = false) :
    schedule_24_hours nowH nowM env = ⟨false, [], 0, 0⟩ := by
  simp [schedule_24_hours, h]

/-- An OS environment on which the clear call fails. -/
def envClearFails : WakeEnv := ⟨false, fun _ => true⟩

theorem schedule_24_hours_clear_failure_aborts_witness :
    schedule_24_hours 10 30 envClearFails = ⟨false, [], 0, 0⟩ :=
  schedule_24_hours_clear_failure_aborts 10 30 envClearFails rfl

/-- C7: after a successful clear, the scheduler computes exactly 24 hourly
timestamps at minute :55, starting within the current hour at minute :55 when the
current minute is below 55 and within the next hour otherwise, attempts
each registration independently (the success counter counts exactly the
registrations the OS accepts), and the success count plus the failure count
equals 24. -/
theorem schedule_24_hours_populates (nowH nowM : Nat) (env : WakeEnv)
    (hc : env.clearOk = true) :
    (schedule_24_hours nowH nowM env).wakes
      = (List.range 24).map (fun i => wakeStart nowH nowM + i * 60) ∧
    (schedule_24_hours nowH nowM env).wakes.length = 24 ∧
    (nowM < 55 → wakeStart nowH nowM = nowH * 60 + 55) ∧
    (55 ≤ nowM → wakeStart nowH nowM = (nowH + 1) * 60 + 55) ∧
    (∀ w ∈ (schedule_24_hours nowH nowM env).wakes, w % 60 = 55) ∧
    (schedule_24_hours nowH nowM env).scheduled_count
      = (schedule_24_hours nowH nowM env).wakes.countP
          (fun w => env.registerOk w) ∧
    (schedule_24_hours nowH nowM env).scheduled_count
      + (schedule_24_hours nowH nowM env).failed_count = 24 := by
  have ht : schedule_24_hours nowH nowM env =
      ⟨true,
        (List.range 24).map (fun i => wakeStart nowH nowM + i * 60),
        (registerLoop env
          ((List.range 24).map (fun i => wakeStart nowH nowM + i * 60))).1,
        (registerLoop env
          ((List.range 24).map (fun i => wakeStart nowH nowM + i * 60))).2⟩ := by
    simp [schedule_24_hours, hc]
  rw [ht]
  refine ⟨rfl, by simp, ?_, ?_, ?_, ?_, ?_⟩
  · intro h
    unfold wakeStart
    rw [if_neg (by omega)]
  · intro h
    unfold wakeStart
    rw [if_pos h]
  · intro w hw
    obtain ⟨i, hi, hwi⟩ := List.mem_map.mp hw
    unfold wakeStart at hwi
    by_cases h : 55 ≤ nowM
    · rw [if_pos h] at hwi; omega
    · rw [if_neg h] at hwi; omega
  · exact registerLoop_fst env _
  · rw [registerLoop_sum]
    simp

/-- An OS environment on which every call succeeds. -/
def envAllOk : WakeEnv := ⟨true, fun _ => true⟩

theorem schedule_24_hours_populates_witness :
    (schedule_24_hours 10 0 envAllOk).wakes.length = 24 ∧
    (schedule_24_hours 10 0 envAllOk).scheduled_count
      + (schedule_24_hours 10 0 envAllOk).failed_count = 24 :=
  ⟨(schedule_24_hours_populates 10 0 envAllOk rfl).2.1,
    (schedule_24_hours_populates 10 0 envAllOk rfl).2.2.2.2.2.2⟩
